import Mathlib

/-!
Shallow embedding of the requirement-validator core (src/main.py) and proofs
of the spec claims about it.

Strings are modelled as lists of Unicode characters (`Str := List Char`).
The Unicode-dependent primitives (`str.lower`, NFD decomposition, the Mn
category) are modelled for the character repertoire the program's rule
tables and inputs live in: ASCII plus the Spanish accented letters
a e i o u with acute, u with diaeresis and n with tilde; every other
character passes through unchanged, which matches Python on that repertoire.
-/

namespace ReqValidator

abbrev Str := List Char

/-- Lift a Lean string literal into the character-list model. -/
def S (s : String) : Str := s.data

/-- Python `str` whitespace (the ASCII part, which is all the program uses). -/
def isSpaceChar (c : Char) : Bool :=
  c == ' ' || c == '\t' || c == '\n' || c == '\r' || c == '\x0b' || c == '\x0c'

/-- Python `str.lower` on the modelled repertoire: ASCII letters and the
Spanish accented capitals; every other character is unchanged. -/
def charLower (c : Char) : Char :=
  if c == 'Á' then 'á'
  else if c == 'É' then 'é'
  else if c == 'Í' then 'í'
  else if c == 'Ó' then 'ó'
  else if c == 'Ú' then 'ú'
  else if c == 'Ü' then 'ü'
  else if c == 'Ñ' then 'ñ'
  else if 'A' ≤ c ∧ c ≤ 'Z' then Char.ofNat (c.toNat + 32)
  else c

/-- NFD decomposition of one character on the modelled repertoire:
each precomposed accented lowercase letter decomposes into its base letter
followed by a combining mark; everything else is already decomposed. -/
def nfdChar (c : Char) : Str :=
  if c == 'á' then ['a', '\u0301']
  else if c == 'é' then ['e', '\u0301']
  else if c == 'í' then ['i', '\u0301']
  else if c == 'ó' then ['o', '\u0301']
  else if c == 'ú' then ['u', '\u0301']
  else if c == 'ü' then ['u', '\u0308']
  else if c == 'ñ' then ['n', '\u0303']
  else [c]

/-- Unicode category Mn (nonspacing combining mark), restricted to the marks
`nfdChar` can produce. -/
def isCombiningMark (c : Char) : Bool :=
  c == '\u0301' || c == '\u0308' || c == '\u0303'

/-- `AdvancedRequirementValidator.normalize_text` (src/main.py lines 33-38):
lower-case, NFD-decompose, drop category-Mn characters. -/
def normalize_text (text : Str) : Str :=
  (((text.map charLower).flatMap nfdChar).filter (fun c => !isCombiningMark c))

/-- Python `str.strip()`: drop leading and trailing whitespace. -/
def stripChars (s : Str) : Str :=
  ((s.dropWhile isSpaceChar).reverse.dropWhile isSpaceChar).reverse

/-- Helper for `splitWords`: `acc` is the (reversed) word currently being read. -/
def splitWordsAux : Str → Str → List Str
  | [], acc => if acc.isEmpty then [] else [acc.reverse]
  | c :: rest, acc =>
      if isSpaceChar c then
        if acc.isEmpty then splitWordsAux rest []
        else acc.reverse :: splitWordsAux rest []
      else splitWordsAux rest (c :: acc)

/-- Python `str.split()` with no argument: split on runs of whitespace,
discarding empty pieces. -/
def splitWords (s : Str) : List Str := splitWordsAux s []

/-- Does `t` start with `p`? (Helper for substring containment.) -/
def startsWithSub : Str → Str → Bool
  | [], _ => true
  | _ :: _, [] => false
  | p :: ps, c :: cs => p == c && startsWithSub ps cs

/-- Python substring containment `pat in text`. -/
def containsSub (text pat : Str) : Bool :=
  match text with
  | [] => pat.isEmpty
  | _ :: rest => startsWithSub pat text || containsSub rest pat

/-- Python `", ".join(xs)`. -/
def joinComma (xs : List Str) : Str := List.intercalate (S ", ") xs

/-- One validation finding.  The source uses raw dicts whose advisory field is
keyed `suggestion` for errors and `recommendation` for suggestions; both carry
one advisory string, modelled here as the single field `advice`. -/
structure Finding where
  ftype : Str
  description : Str
  advice : Str
deriving DecidableEq, Repr

/-- The dict returned by `validate_requirement`. -/
structure Report where
  original_text : Str
  is_valid : Bool
  errors : List Finding
  suggestions : List Finding
deriving DecidableEq, Repr

/-- `self.weak_words` (src/main.py lines 17-20), in source order. -/
def weak_words : List Str :=
  [S "algo", S "algún", S "algunos", S "tal vez", S "quizás", S "podría",
   S "aproximadamente", S "más o menos", S "creo que", S "parece"]

/-- `self.functional_keywords` (src/main.py lines 23-26), in source order. -/
def functional_keywords : List Str :=
  [S "debe", S "debería", S "tiene que", S "permitir", S "gestionar",
   S "calcular", S "mostrar", S "registrar", S "generar"]

/-- `self.non_functional_keywords` (src/main.py lines 28-31), in source order. -/
def non_functional_keywords : List Str :=
  [S "rendimiento", S "seguridad", S "escalabilidad", S "disponibilidad",
   S "usabilidad", S "tiempo de respuesta", S "número de usuarios"]

/-- `metrics_indicators` (src/main.py line 108), in source order. -/
def metrics_indicators : List Str :=
  [S "máximo", S "mínimo", S "al menos", S "no más de", S "%"]

/-- The finding appended by the length check (src/main.py lines 57-61). -/
def lengthFinding : Finding :=
  ⟨S "Longitud Insuficiente",
   S "El requerimiento es demasiado corto para ser significativo.",
   S "Expanda su requerimiento para incluir más detalles específicos."⟩

/-- The finding appended by the ambiguity check (src/main.py lines 70-74). -/
def ambiguityFinding (found : List Str) : Finding :=
  ⟨S "Ambigüedad",
   S "Se encontraron palabras ambiguas: " ++ joinComma found,
   S "Reemplace palabras vagas con términos precisos y concretos."⟩

/-- The finding appended by the keyword check (src/main.py lines 85-89). -/
def keywordFinding (keywords : List Str) : Finding :=
  ⟨S "Ausencia de Palabras Clave",
   S "No se encontraron palabras características del tipo de requerimiento.",
   S "Incluya palabras como: " ++ joinComma (keywords.take 3)⟩

/-- The finding appended by the specificity check (src/main.py lines 101-105). -/
def specificityFinding : Finding :=
  ⟨S "Falta de Especificidad",
   S "El requerimiento carece de verbos o sustantivos específicos.",
   S "Defina claramente la acción (verbo) y el objeto (sustantivo) del requerimiento."⟩

/-- The suggestion appended by the metrics check (src/main.py lines 114-118). -/
def measurabilityFinding : Finding :=
  ⟨S "Medibilidad",
   S "No se detectaron métricas específicas.",
   S "Considere agregar métricas o criterios de aceptación medibles."⟩

/-- `ambiguous_words_found` (src/main.py lines 64-67): the weak words, in
table order, that occur as substrings of the normalized requirement. -/
def ambiguous_words_found (normalized_req : Str) : List Str :=
  weak_words.filter (fun word => containsSub normalized_req word)

/-- The statement pair every failing error check executes
(src/main.py lines 56-57, 69-70, 84-85, 100-101):
set `is_valid` to `False` and append the finding to `errors`. -/
def recordError (c : Prop) [Decidable c] (f : Finding) (r : Report) : Report :=
  if c then { r with is_valid := false, errors := r.errors ++ [f] } else r

/-- Length check (src/main.py lines 54-61). -/
def lengthCheck (requirement : Str) (r : Report) : Report :=
  recordError ((splitWords requirement).length < 5) lengthFinding r

/-- Ambiguity check (src/main.py lines 63-74); the Python guard
`if ambiguous_words_found:` is list truthiness, i.e. non-emptiness. -/
def ambiguityCheck (normalized_req : Str) (r : Report) : Report :=
  recordError (ambiguous_words_found normalized_req ≠ [])
    (ambiguityFinding (ambiguous_words_found normalized_req)) r

/-- Characteristic-keyword check (src/main.py lines 76-89). -/
def keywordCheck (is_functional : Bool) (normalized_req : Str) (r : Report) : Report :=
  recordError
    ((if is_functional then functional_keywords else non_functional_keywords).any
       (fun keyword => containsSub normalized_req keyword) = false)
    (keywordFinding (if is_functional then functional_keywords else non_functional_keywords)) r

/-- Specificity check (src/main.py lines 91-105).  The POS tagger (spaCy) is an
external capability: it is modelled as an optional function from the sentence
to the list of its tokens' coarse POS tags (the `token.pos_` strings). -/
def specificityCheck (nlp : Option (Str → List Str)) (requirement : Str) (r : Report) : Report :=
  match nlp with
  | none => r
  | some tagf =>
      recordError
        (((tagf requirement).filter (fun t => t == S "VERB")).length = 0
          ∨ ((tagf requirement).filter (fun t => t == S "NOUN")).length < 2)
        specificityFinding r

/-- Metrics check (src/main.py lines 107-118): matched case-insensitively on
the (stripped) original text, without accent normalization; on
`not has_metrics and is_functional` it appends a suggestion only. -/
def metricsCheck (is_functional : Bool) (requirement : Str) (r : Report) : Report :=
  if metrics_indicators.any
       (fun metric => containsSub (requirement.map charLower) metric) = false
     ∧ is_functional = true then
    { r with suggestions := r.suggestions ++ [measurabilityFinding] }
  else r

/-- `AdvancedRequirementValidator.validate_requirement` (src/main.py lines
40-120): strip the input, normalize it, then run the five checks in source
order, each one appending to the accumulating report dict. -/
def validate_requirement (nlp : Option (Str → List Str))
    (requirement0 : Str) (is_functional : Bool) : Report :=
  metricsCheck is_functional (stripChars requirement0)
    (specificityCheck nlp (stripChars requirement0)
      (keywordCheck is_functional (normalize_text (stripChars requirement0))
        (ambiguityCheck (normalize_text (stripChars requirement0))
          (lengthCheck (stripChars requirement0)
            ⟨stripChars requirement0, true, [], []⟩))))

/-! ### Field characterizations of the individual checks -/

theorem recordError_errors (c : Prop) [Decidable c] (f : Finding) (r : Report) :
    (recordError c f r).errors = r.errors ++ (if c then [f] else []) := by
  by_cases h : c <;> simp [recordError, h]

theorem recordError_suggestions (c : Prop) [Decidable c] (f : Finding) (r : Report) :
    (recordError c f r).suggestions = r.suggestions := by
  by_cases h : c <;> simp [recordError, h]

theorem recordError_original (c : Prop) [Decidable c] (f : Finding) (r : Report) :
    (recordError c f r).original_text = r.original_text := by
  by_cases h : c <;> simp [recordError, h]

theorem recordError_inv (c : Prop) [Decidable c] (f : Finding) (r : Report)
    (h : r.is_valid = r.errors.isEmpty) :
    (recordError c f r).is_valid = (recordError c f r).errors.isEmpty := by
  by_cases hc : c <;> simp [recordError, hc, h]

theorem specificityCheck_errors (nlp : Option (Str → List Str)) (req : Str) (r : Report) :
    (specificityCheck nlp req r).errors =
      r.errors ++
        (match nlp with
         | none => []
         | some tagf =>
             if ((tagf req).filter (fun t => t == S "VERB")).length = 0
                ∨ ((tagf req).filter (fun t => t == S "NOUN")).length < 2
             then [specificityFinding] else []) := by
  cases nlp with
  | none => simp [specificityCheck]
  | some tagf => simp [specificityCheck, recordError_errors]

theorem specificityCheck_suggestions (nlp : Option (Str → List Str)) (req : Str) (r : Report) :
    (specificityCheck nlp req r).suggestions = r.suggestions := by
  cases nlp with
  | none => rfl
  | some tagf => simp [specificityCheck, recordError_suggestions]

theorem specificityCheck_original (nlp : Option (Str → List Str)) (req : Str) (r : Report) :
    (specificityCheck nlp req r).original_text = r.original_text := by
  cases nlp with
  | none => rfl
  | some tagf => simp [specificityCheck, recordError_original]

theorem specificityCheck_inv (nlp : Option (Str → List Str)) (req : Str) (r : Report)
    (h : r.is_valid = r.errors.isEmpty) :
    (specificityCheck nlp req r).is_valid = (specificityCheck nlp req r).errors.isEmpty := by
  cases nlp with
  | none => exact h
  | some tagf => exact recordError_inv _ _ _ h

theorem metricsCheck_errors (isf : Bool) (req : Str) (r : Report) :
    (metricsCheck isf req r).errors = r.errors := by
  unfold metricsCheck; split_ifs <;> rfl

theorem metricsCheck_is_valid (isf : Bool) (req : Str) (r : Report) :
    (metricsCheck isf req r).is_valid = r.is_valid := by
  unfold metricsCheck; split_ifs <;> rfl

theorem metricsCheck_original (isf : Bool) (req : Str) (r : Report) :
    (metricsCheck isf req r).original_text = r.original_text := by
  unfold metricsCheck; split_ifs <;> rfl

theorem metricsCheck_suggestions (isf : Bool) (req : Str) (r : Report) :
    (metricsCheck isf req r).suggestions =
      r.suggestions ++
        (if metrics_indicators.any
              (fun metric => containsSub (req.map charLower) metric) = false
            ∧ isf = true
         then [measurabilityFinding] else []) := by
  unfold metricsCheck; split_ifs <;> simp

/-! ### Report-level characterizations -/

theorem validate_requirement_original (nlp : Option (Str → List Str))
    (req : Str) (isf : Bool) :
    (validate_requirement nlp req isf).original_text = stripChars req := by
  unfold validate_requirement lengthCheck ambiguityCheck keywordCheck
  rw [metricsCheck_original, specificityCheck_original, recordError_original,
      recordError_original, recordError_original]

theorem validate_requirement_errors (nlp : Option (Str → List Str))
    (req : Str) (isf : Bool) :
    (validate_requirement nlp req isf).errors =
      (if (splitWords (stripChars req)).length < 5 then [lengthFinding] else [])
      ++ (if ambiguous_words_found (normalize_text (stripChars req)) ≠ [] then
            [ambiguityFinding (ambiguous_words_found (normalize_text (stripChars req)))]
          else [])
      ++ (if (if isf then functional_keywords else non_functional_keywords).any
              (fun keyword => containsSub (normalize_text (stripChars req)) keyword) = false
          then [keywordFinding (if isf then functional_keywords else non_functional_keywords)]
          else [])
      ++ (match nlp with
          | none => []
          | some tagf =>
              if ((tagf (stripChars req)).filter (fun t => t == S "VERB")).length = 0
                 ∨ ((tagf (stripChars req)).filter (fun t => t == S "NOUN")).length < 2
              then [specificityFinding] else []) := by
  unfold validate_requirement lengthCheck ambiguityCheck keywordCheck
  rw [metricsCheck_errors, specificityCheck_errors, recordError_errors,
      recordError_errors, recordError_errors]
  simp [List.append_assoc]

theorem validate_requirement_suggestions (nlp : Option (Str → List Str))
    (req : Str) (isf : Bool) :
    (validate_requirement nlp req isf).suggestions =
      (if metrics_indicators.any
            (fun metric => containsSub ((stripChars req).map charLower) metric) = false
          ∧ isf = true
       then [measurabilityFinding] else []) := by
  unfold validate_requirement lengthCheck ambiguityCheck keywordCheck
  rw [metricsCheck_suggestions, specificityCheck_suggestions, recordError_suggestions,
      recordError_suggestions, recordError_suggestions]
  simp

theorem validate_requirement_inv (nlp : Option (Str → List Str))
    (req : Str) (isf : Bool) :
    (validate_requirement nlp req isf).is_valid =
      (validate_requirement nlp req isf).errors.isEmpty := by
  unfold validate_requirement lengthCheck ambiguityCheck keywordCheck
  rw [metricsCheck_is_valid, metricsCheck_errors]
  exact specificityCheck_inv _ _ _ (recordError_inv _ _ _
    (recordError_inv _ _ _ (recordError_inv _ _ _ rfl)))

/-! ### Distinctness of the findings (they differ already in their type label) -/

theorem finding_ne_of_ftype_ne {f g : Finding} (h : f.ftype ≠ g.ftype) : f ≠ g :=
  fun e => h (congrArg Finding.ftype e)

theorem len_ne_amb (l : List Str) : lengthFinding ≠ ambiguityFinding l :=
  finding_ne_of_ftype_ne (show S "Longitud Insuficiente" ≠ S "Ambigüedad" by decide)

theorem len_ne_kw (kws : List Str) : lengthFinding ≠ keywordFinding kws :=
  finding_ne_of_ftype_ne (show S "Longitud Insuficiente" ≠ S "Ausencia de Palabras Clave" by decide)

theorem len_ne_spec : lengthFinding ≠ specificityFinding :=
  finding_ne_of_ftype_ne (show S "Longitud Insuficiente" ≠ S "Falta de Especificidad" by decide)

theorem kw_ne_len (kws : List Str) : keywordFinding kws ≠ lengthFinding :=
  finding_ne_of_ftype_ne (show S "Ausencia de Palabras Clave" ≠ S "Longitud Insuficiente" by decide)

theorem kw_ne_amb (kws l : List Str) : keywordFinding kws ≠ ambiguityFinding l :=
  finding_ne_of_ftype_ne (show S "Ausencia de Palabras Clave" ≠ S "Ambigüedad" by decide)

theorem kw_ne_spec (kws : List Str) : keywordFinding kws ≠ specificityFinding :=
  finding_ne_of_ftype_ne (show S "Ausencia de Palabras Clave" ≠ S "Falta de Especificidad" by decide)

theorem spec_ne_len : specificityFinding ≠ lengthFinding :=
  finding_ne_of_ftype_ne (show S "Falta de Especificidad" ≠ S "Longitud Insuficiente" by decide)

theorem spec_ne_amb (l : List Str) : specificityFinding ≠ ambiguityFinding l :=
  finding_ne_of_ftype_ne (show S "Falta de Especificidad" ≠ S "Ambigüedad" by decide)

theorem spec_ne_kw (kws : List Str) : specificityFinding ≠ keywordFinding kws :=
  finding_ne_of_ftype_ne (show S "Falta de Especificidad" ≠ S "Ausencia de Palabras Clave" by decide)

theorem mem_ite_singleton {α : Type} (a x : α) (c : Prop) [Decidable c] :
    a ∈ (if c then [x] else []) ↔ c ∧ a = x := by
  split_ifs with h <;> simp [h]

theorem all_ite_singleton {α : Type} (p : α → Bool) (x : α) (c : Prop) [Decidable c] :
    ((if c then [x] else []).all p = true) ↔ (c → p x = true) := by
  split_ifs with h <;> simp [h]

/-! ### The claims -/

/-- C1: for every requirement string and every value of `is_functional`, the
report's `is_valid` is true exactly when its `errors` sequence is empty (it
always equals the emptiness of `errors`); the contents of `suggestions` never
influence it. -/
theorem C1_is_valid_iff_no_errors (nlp : Option (Str → List Str)) (req : Str) (isf : Bool) :
    ((validate_requirement nlp req isf).is_valid = true ↔
      (validate_requirement nlp req isf).errors = []) ∧
    (validate_requirement nlp req isf).is_valid =
      (validate_requirement nlp req isf).errors.isEmpty := by
  refine ⟨?_, validate_requirement_inv nlp req isf⟩
  rw [validate_requirement_inv nlp req isf]
  exact List.isEmpty_iff

/-- C3 counterexample: for the input `" hola "`, which carries leading and
trailing whitespace, the report's `original_text` is not the input as
submitted (the code strips it first). -/
theorem C3_counterexample :
    ¬ ((validate_requirement none (S " hola ") true).original_text = S " hola ") := by
  rw [validate_requirement_original]
  decide

/-- C3 (amended): for every input string, `original_text` is the input with
leading and trailing whitespace stripped (hence the input itself whenever the
input has no leading or trailing whitespace). -/
theorem C3_original_text_is_stripped_input (nlp : Option (Str → List Str))
    (req : Str) (isf : Bool) :
    (validate_requirement nlp req isf).original_text = stripChars req :=
  validate_requirement_original nlp req isf

/-- C6: the "Longitud Insuficiente" (Insufficient Length) error is recorded
exactly when the word count of the trimmed, whitespace-split input is below 5;
in particular a 4-word input always gets it and a 5-word input never does. -/
theorem C6_length_error_iff_below_five (nlp : Option (Str → List Str))
    (req : Str) (isf : Bool) :
    lengthFinding ∈ (validate_requirement nlp req isf).errors ↔
      (splitWords (stripChars req)).length < 5 := by
  rw [validate_requirement_errors]
  cases nlp <;> simp [mem_ite_singleton, len_ne_amb, len_ne_kw, len_ne_spec]

/-- C7: the characteristic-keyword check selects `functional_keywords` when
`is_functional` is true and `non_functional_keywords` otherwise, tests
substring containment of each keyword in the normalized text, and records the
"Ausencia de Palabras Clave" (Missing Characteristic Keywords) error — whose
suggestion lists the first 3 keywords of the selected set in table order —
exactly when no keyword matches. -/
theorem C7_keyword_error_iff_no_keyword (nlp : Option (Str → List Str))
    (req : Str) (isf : Bool) :
    (⟨S "Ausencia de Palabras Clave",
      S "No se encontraron palabras características del tipo de requerimiento.",
      S "Incluya palabras como: " ++
        joinComma ((if isf then functional_keywords else non_functional_keywords).take 3)⟩
      : Finding)
      ∈ (validate_requirement nlp req isf).errors ↔
    (if isf then functional_keywords else non_functional_keywords).any
      (fun keyword => containsSub (normalize_text (stripChars req)) keyword) = false := by
  show keywordFinding (if isf then functional_keywords else non_functional_keywords)
      ∈ (validate_requirement nlp req isf).errors ↔ _
  rw [validate_requirement_errors]
  cases nlp <;> simp [mem_ite_singleton, kw_ne_len, kw_ne_amb, kw_ne_spec]

/-- C4: with the POS-tagging capability unavailable no "Falta de
Especificidad" (Lack of Specificity) finding is ever produced; with it
available, that error is recorded exactly when the tagger reports zero VERB
tokens or fewer than two NOUN tokens for the stripped, non-normalized
requirement. -/
theorem C4_specificity_error_iff (req : Str) (isf : Bool) :
    ((validate_requirement none req isf).errors.all
        (fun f => !(f.ftype == S "Falta de Especificidad")) = true)
    ∧ ∀ tagf : Str → List Str,
        (specificityFinding ∈ (validate_requirement (some tagf) req isf).errors ↔
          (((tagf (stripChars req)).filter (fun t => t == S "VERB")).length = 0
            ∨ ((tagf (stripChars req)).filter (fun t => t == S "NOUN")).length < 2)) := by
  constructor
  · have h1 : lengthFinding.ftype ≠ S "Falta de Especificidad" := by decide
    have h2 : ∀ l : List Str, (ambiguityFinding l).ftype ≠ S "Falta de Especificidad" :=
      fun l => show (S "Ambigüedad" : Str) ≠ S "Falta de Especificidad" by decide
    have h3 : ∀ kws : List Str, (keywordFinding kws).ftype ≠ S "Falta de Especificidad" :=
      fun kws => show (S "Ausencia de Palabras Clave" : Str) ≠ S "Falta de Especificidad"
        by decide
    rw [validate_requirement_errors]
    simp [List.all_append, all_ite_singleton, h1, h2, h3]
  · intro tagf
    rw [validate_requirement_errors]
    simp [mem_ite_singleton, spec_ne_len, spec_ne_amb, spec_ne_kw]

/-- C5: the "Medibilidad" (Measurability) finding is the whole content of
`suggestions`, present if and only if `is_functional` is true and no
metric-indicator phrase occurs case-insensitively (without accent
normalization) in the report's text; no error ever carries that type, and
`is_valid` is determined by `errors` alone. -/
theorem C5_measurability_suggestion_iff (nlp : Option (Str → List Str))
    (req : Str) (isf : Bool) :
    ((validate_requirement nlp req isf).suggestions =
      if metrics_indicators.any
           (fun metric => containsSub ((stripChars req).map charLower) metric) = false
         ∧ isf = true
      then [measurabilityFinding] else [])
    ∧ ((validate_requirement nlp req isf).errors.all
        (fun f => !(f.ftype == S "Medibilidad")) = true)
    ∧ (validate_requirement nlp req isf).is_valid =
        (validate_requirement nlp req isf).errors.isEmpty := by
  refine ⟨validate_requirement_suggestions nlp req isf, ?_,
    validate_requirement_inv nlp req isf⟩
  have h1 : lengthFinding.ftype ≠ S "Medibilidad" := by decide
  have h2 : ∀ l : List Str, (ambiguityFinding l).ftype ≠ S "Medibilidad" :=
    fun l => show (S "Ambigüedad" : Str) ≠ S "Medibilidad" by decide
  have h3 : ∀ kws : List Str, (keywordFinding kws).ftype ≠ S "Medibilidad" :=
    fun kws => show (S "Ausencia de Palabras Clave" : Str) ≠ S "Medibilidad" by decide
  have h4 : specificityFinding.ftype ≠ S "Medibilidad" := by decide
  rw [validate_requirement_errors]
  cases nlp <;> simp [List.all_append, all_ite_singleton, h1, h2, h3, h4]

/-- C9: `validate_requirement` is deterministic given a fixed tagger state:
two calls with identical `(requirement, is_functional)` inputs and the same
tagger reference (the rule tables are fixed constants) return structurally
identical reports, field for field. -/
theorem C9_deterministic (nlp₁ nlp₂ : Option (Str → List Str)) (req₁ req₂ : Str)
    (isf₁ isf₂ : Bool) (hn : nlp₁ = nlp₂) (hr : req₁ = req₂) (hf : isf₁ = isf₂) :
    (validate_requirement nlp₁ req₁ isf₁).original_text
        = (validate_requirement nlp₂ req₂ isf₂).original_text
    ∧ (validate_requirement nlp₁ req₁ isf₁).is_valid
        = (validate_requirement nlp₂ req₂ isf₂).is_valid
    ∧ (validate_requirement nlp₁ req₁ isf₁).errors
        = (validate_requirement nlp₂ req₂ isf₂).errors
    ∧ (validate_requirement nlp₁ req₁ isf₁).suggestions
        = (validate_requirement nlp₂ req₂ isf₂).suggestions := by
  subst hn; subst hr; subst hf
  exact ⟨rfl, rfl, rfl, rfl⟩

/-- C9 witness: the determinism theorem applied to the concrete repeated call
`validate_requirement none "hola" true`. -/
theorem C9_deterministic_witness :
    (validate_requirement none (S "hola") true).original_text
        = (validate_requirement none (S "hola") true).original_text
    ∧ (validate_requirement none (S "hola") true).is_valid
        = (validate_requirement none (S "hola") true).is_valid
    ∧ (validate_requirement none (S "hola") true).errors
        = (validate_requirement none (S "hola") true).errors
    ∧ (validate_requirement none (S "hola") true).suggestions
        = (validate_requirement none (S "hola") true).suggestions :=
  C9_deterministic none none (S "hola") (S "hola") true true rfl rfl rfl

/-- C10: `validate_requirement` is total over strings: for every input string
(including the empty one) and either flag it returns a report, whose text is
the stripped input and whose validity flag is the emptiness of its errors;
the modelled tagger, when present, is a total function. -/
theorem C10_total (nlp : Option (Str → List Str)) (req : Str) (isf : Bool) :
    ∃ r : Report, validate_requirement nlp req isf = r
      ∧ r.original_text = stripChars req
      ∧ (r.is_valid = true ↔ r.errors = []) :=
  ⟨validate_requirement nlp req isf, rfl, validate_requirement_original nlp req isf, by
    rw [validate_requirement_inv nlp req isf]; exact List.isEmpty_iff⟩

/-! ### Characters of a substring occur in the text -/

theorem mem_of_startsWithSub {c : Char} :
    ∀ {p t : Str}, startsWithSub p t = true → c ∈ p → c ∈ t := by
  intro p
  induction p with
  | nil => intro t _ hc; exact absurd hc (List.not_mem_nil c)
  | cons a ps ih =>
      intro t hst hc
      cases t with
      | nil => exact absurd hst (by simp [startsWithSub])
      | cons d cs =>
          simp only [startsWithSub, Bool.and_eq_true, beq_iff_eq] at hst
          obtain ⟨had, hrest⟩ := hst
          rcases List.mem_cons.mp hc with hca | hcp
          · exact List.mem_cons.mpr (Or.inl (hca.trans had))
          · exact List.mem_cons.mpr (Or.inr (ih hrest hcp))

theorem mem_of_containsSub {c : Char} :
    ∀ {t p : Str}, containsSub t p = true → c ∈ p → c ∈ t := by
  intro t
  induction t with
  | nil =>
      intro p hct hc
      simp only [containsSub, List.isEmpty_iff] at hct
      subst hct
      exact absurd hc (List.not_mem_nil c)
  | cons d rest ih =>
      intro p hct hc
      simp only [containsSub, Bool.or_eq_true] at hct
      rcases hct with hst | htail
      · exact mem_of_startsWithSub hst hc
      · exact List.mem_cons.mpr (Or.inr (ih htail hc))

/-! ### The normalized text never contains a precomposed accented letter -/

theorem nfdChar_no_accent (d c : Char) (h : c ∈ nfdChar d)
    (hacc : c = 'á' ∨ c = 'í' ∨ c = 'ú') : False := by
  unfold nfdChar at h
  split_ifs at h with h1 h2 h3 h4 h5 h6 h7 <;> simp_all <;>
    rcases hacc with hc | hc | hc <;> simp_all

theorem normalize_no_accent (s : Str) (c : Char) (h : c ∈ normalize_text s)
    (hacc : c = 'á' ∨ c = 'í' ∨ c = 'ú') : False := by
  unfold normalize_text at h
  have h2 := List.mem_of_mem_filter h
  rw [List.mem_flatMap] at h2
  obtain ⟨d, _, hd⟩ := h2
  exact nfdChar_no_accent d c hd hacc

theorem no_match_algun (s : Str) :
    containsSub (normalize_text s) (S "algún") = false := by
  by_contra h
  rw [Bool.not_eq_false] at h
  exact normalize_no_accent s 'ú' (mem_of_containsSub h (by decide)) (by decide)

theorem no_match_quizas (s : Str) :
    containsSub (normalize_text s) (S "quizás") = false := by
  by_contra h
  rw [Bool.not_eq_false] at h
  exact normalize_no_accent s 'á' (mem_of_containsSub h (by decide)) (by decide)

theorem no_match_podria (s : Str) :
    containsSub (normalize_text s) (S "podría") = false := by
  by_contra h
  rw [Bool.not_eq_false] at h
  exact normalize_no_accent s 'í' (mem_of_containsSub h (by decide)) (by decide)

theorem no_match_masomenos (s : Str) :
    containsSub (normalize_text s) (S "más o menos") = false := by
  by_contra h
  rw [Bool.not_eq_false] at h
  exact normalize_no_accent s 'á' (mem_of_containsSub h (by decide)) (by decide)

/-- C8: for every input string, the list the Ambiguity finding reports (the
weak words found in the normalized text) never includes any of the four
weak-word table entries that themselves carry an accent — 'algún', 'quizás',
'podría', 'más o menos' — even though all four are in `weak_words`: matching
is done on accent-stripped text, so these entries can never match. -/
theorem C8_accented_weak_words_never_match (s : Str) :
    ((ambiguous_words_found (normalize_text s)).all
        (fun w => !(w == S "algún" || w == S "quizás" || w == S "podría"
                    || w == S "más o menos")) = true)
    ∧ ([S "algún", S "quizás", S "podría", S "más o menos"].all
        (fun w => weak_words.contains w) = true) := by
  refine ⟨?_, by decide⟩
  rw [List.all_eq_true]
  intro w hw
  unfold ambiguous_words_found at hw
  rw [List.mem_filter] at hw
  obtain ⟨_, hsub⟩ := hw
  simp only [Bool.not_eq_true', Bool.or_eq_false_iff, beq_eq_false_iff_ne, ne_eq]
  refine ⟨⟨⟨?_, ?_⟩, ?_⟩, ?_⟩ <;> intro hwEq <;> subst hwEq
  · exact absurd hsub (by rw [no_match_algun s]; decide)
  · exact absurd hsub (by rw [no_match_quizas s]; decide)
  · exact absurd hsub (by rw [no_match_podria s]; decide)
  · exact absurd hsub (by rw [no_match_masomenos s]; decide)

/-- C2: evaluation of the code at the inputs "quizás" / "quizas" (and case
variants).  Contrary to the spec's "both trigger the same ambiguity finding",
neither input triggers any Ambiguity finding at all: the table entry 'quizás'
keeps its accent while the text is matched accent-stripped, so it can never
match (the check is still symmetric — accent/case variants yield the same
errors). -/
theorem C2_quizas_triggers_no_ambiguity :
    ((validate_requirement none (S "quizás") true).errors.all
        (fun f => !(f.ftype == S "Ambigüedad")) = true)
    ∧ ((validate_requirement none (S "quizas") true).errors.all
        (fun f => !(f.ftype == S "Ambigüedad")) = true)
    ∧ ((validate_requirement none (S "QUIZÁS") true).errors
        = (validate_requirement none (S "quizas") true).errors)
    ∧ ((validate_requirement none (S "Quizás") true).errors
        = (validate_requirement none (S "quizas") true).errors) := by decide

end ReqValidator
